import Mathlib

/-!
Shallow embedding of the interview-bot server (`server_ws.py`) for claim checking.

Modelling conventions:
* Python objects that appear in the JSON store and in parsed model responses are
  embedded as `PyVal` (`None`, `bool`, `int`, `str`, `list`, `dict`).  JSON numbers
  are modelled as integers: the claims under study only concern integer-valued
  fields, and a float value can never pass the score validation
  (`isinstance(val, int)` is `False` for Python floats), so floats only ever flow
  into error branches that are modelled collectively.
* Python `dict`s are association lists with the insertion-order semantics of
  CPython: setting an existing key updates it in place, a fresh key is appended.
* The backing JSON file is modelled by `FS`: the content of `interview_records.json`
  and of the temporary file `interview_records.json.tmp`.  A file content is either
  the serialized form of a `PyVal` (`FileContent.jsonOf v`, standing for the text
  produced by `json.dump`, which `json.loads` parses back to an equal value for the
  string/int/bool/None/list/dict documents this program stores), text that
  `json.loads` rejects (`FileContent.invalid s`), or empty/whitespace-only text
  (`FileContent.blank`).
* The chat-completion service is an oracle: each turn's response (or the exception
  the call raised) is an input to the step function, as is the wall-clock time used
  for `datetime.utcnow().isoformat()`.
-/

namespace InterviewBot

/-- Embedded Python value (the subset stored in `interview_records.json` and
returned by `json.loads`). -/
inductive PyVal where
  | pynone
  | pybool (b : Bool)
  | pyint (n : Int)
  | pystr (s : String)
  | pylist (xs : List PyVal)
  | pydict (kvs : List (String × PyVal))
deriving Repr

/-- A Python dict: insertion-ordered association list with unique keys. -/
abbrev PyDict := List (String × PyVal)

/-- Python truthiness (`bool(v)`): `None`, `False`, `0`, `""`, `[]`, `{}` are falsy. -/
def truthy : PyVal → Bool
  | .pynone => false
  | .pybool b => b
  | .pyint n => n != 0
  | .pystr s => s != ""
  | .pylist xs => !xs.isEmpty
  | .pydict kvs => !kvs.isEmpty

/-- `isinstance(v, dict)`. -/
def PyVal.isDict : PyVal → Bool
  | .pydict _ => true
  | _ => false

/-- Dictionary lookup (`d[k]` / `k in d` combined): first matching key. -/
def dget (d : PyDict) (k : String) : Option PyVal :=
  match d with
  | [] => Option.none
  | kv :: rest => if kv.1 = k then some kv.2 else dget rest k

/-- Python `d.get(k)`: `None` when the key is absent. -/
def pyget (d : PyDict) (k : String) : PyVal :=
  (dget d k).getD .pynone

/-- Python `d[k] = v`: update the existing key in place (keeping insertion order),
or append a new key at the end. -/
def dset (d : PyDict) (k : String) (v : PyVal) : PyDict :=
  match d with
  | [] => [(k, v)]
  | kv :: rest => if kv.1 = k then (k, v) :: rest else kv :: dset rest k v

/-- Python `sub in s` on strings (substring test), on exploded character lists. -/
def pySubstrAux (sub : List Char) : List Char → Bool
  | [] => sub.isEmpty
  | c :: cs => sub.isPrefixOf (c :: cs) || pySubstrAux sub cs

/-- Python `sub in s` for strings. -/
def pyInStr (sub s : String) : Bool :=
  pySubstrAux sub.toList s.toList

/-! ## Session store (`load_db` / `save_db`, `server_ws.py` lines 40-60) -/

/-- Content of a stored file: the `json.dump` serialization of a value, text that
`json.loads` rejects, or empty/whitespace-only text. -/
inductive FileContent where
  | jsonOf (v : PyVal)
  | invalid (s : String)
  | blank
deriving Repr

/-- The files the store touches: `DB_PATH` (`main`) and `DB_PATH + ".tmp"` (`tmp`);
`Option.none` means the file does not exist. -/
structure FS where
  main : Option FileContent
  tmp : Option FileContent
deriving Repr

/-- `load_db` (lines 43-53): read the whole file; absent file (`FileNotFoundError`),
empty/whitespace content, or undecodable content (`JSONDecodeError`) all give `{}`;
otherwise the parsed document is returned as-is (the function never raises for any
of these contents). -/
def load_db (fs : FS) : PyVal :=
  match fs.main with
  | Option.none => .pydict []
  | some .blank => .pydict []
  | some (.invalid _) => .pydict []
  | some (.jsonOf v) => v

/-- First half of `save_db` (lines 57-59): `json.dump` the document into
`DB_PATH + ".tmp"`, leaving the original untouched. -/
def writeTmp (fs : FS) (c : FileContent) : FS :=
  { fs with tmp := some c }

/-- `os.replace(tmp_path, DB_PATH)` (line 60): atomically rename the temporary
file over the original. -/
def osReplace (fs : FS) : FS :=
  { main := fs.tmp, tmp := Option.none }

/-- `save_db` (lines 56-60): write the serialized document to the temporary path,
then atomically rename it over the original. -/
def save_db (db : PyDict) (fs : FS) : FS :=
  osReplace (writeTmp fs (.jsonOf (.pydict db)))

/-- Lookup of a field of a stored record: parse the main file, index the document
by the record id, then read one key of the record (diagnostic accessor used to
state properties of the persisted store). -/
def storedField (fs : FS) (id k : String) : Option PyVal :=
  match load_db fs with
  | .pydict db =>
      match dget db id with
      | some (.pydict r) => dget r k
      | _ => Option.none
  | _ => Option.none

/-! ## Score endpoint (`get_score`, `server_ws.py` lines 571-677) -/

/-- Python `isinstance(v, int)`.  Note that in Python `bool` is a subclass of
`int`, so `isinstance(True, int)` is `True`; JSON floats are not ints. -/
def isinstance_int : PyVal → Bool
  | .pyint _ => true
  | .pybool _ => true
  | _ => false

/-- Start code points of the 10-character decimal-digit blocks of the Unicode
character database (general category `Nd`): the characters Python's
`str.isdigit()` accepts *and* `int()` converts.  Each block holds the digit
values 0-9 in code-point order (`unicodedata.decimal`). -/
def pyDecimalDigitBases : List Nat :=
  [0x30, 0x660, 0x6F0, 0x7C0, 0x966, 0x9E6, 0xA66, 0xAE6, 0xB66, 0xBE6,
   0xC66, 0xCE6, 0xD66, 0xDE6, 0xE50, 0xED0, 0xF20, 0x1040, 0x1090, 0x17E0,
   0x1810, 0x1946, 0x19D0, 0x1A80, 0x1A90, 0x1B50, 0x1BB0, 0x1C40, 0x1C50,
   0xA620, 0xA8D0, 0xA900, 0xA9D0, 0xA9F0, 0xAA50, 0xABF0, 0xFF10, 0x104A0,
   0x10D30, 0x11066, 0x110F0, 0x11136, 0x111D0, 0x112F0, 0x11450, 0x114D0,
   0x11650, 0x116C0, 0x11730, 0x118E0, 0x11950, 0x11C50, 0x11D50, 0x11DA0,
   0x16A60, 0x16AC0, 0x16B50, 0x1D7CE, 0x1D7D8, 0x1D7E2, 0x1D7EC, 0x1D7F6,
   0x1E140, 0x1E2F0, 0x1E950, 0x1FBF0]

/-- The decimal value of a character of general category `Nd`
(`unicodedata.decimal(c)`); `Option.none` for every other character. -/
def pyDecimalVal (c : Char) : Option Nat :=
  pyDecimalDigitBases.findSome?
    (fun b => if b ≤ c.toNat ∧ c.toNat ≤ b + 9 then some (c.toNat - b)
              else Option.none)

/-- Code-point ranges of the characters `str.isdigit()` also accepts although
they are not decimal digits (`Numeric_Type=Digit`: superscripts and subscripts,
circled and parenthesized digits, ...); `int()` raises `ValueError` on every
one of them. -/
def pyDigitOnlyRanges : List (Nat × Nat) :=
  [(0xB2, 0xB3), (0xB9, 0xB9), (0x1369, 0x1371), (0x19DA, 0x19DA),
   (0x2070, 0x2070), (0x2074, 0x2079), (0x2080, 0x2089), (0x2460, 0x2468),
   (0x2474, 0x247C), (0x2488, 0x2490), (0x24EA, 0x24EA), (0x24F5, 0x24FD),
   (0x24FF, 0x24FF), (0x2776, 0x277E), (0x2780, 0x2788), (0x278A, 0x2792),
   (0x10A40, 0x10A43), (0x10E60, 0x10E68), (0x11052, 0x1105A),
   (0x1F100, 0x1F10A)]

/-- Python `c.isdigit()` for a single character: a decimal digit of any script,
or one of the digit-only numeric characters. -/
def pyIsdigitChar (c : Char) : Bool :=
  (pyDecimalVal c).isSome ||
    pyDigitOnlyRanges.any
      (fun r => decide (r.1 ≤ c.toNat) && decide (c.toNat ≤ r.2))

/-- Python `s.isdigit()`: nonempty and every character a digit. -/
def pyIsdigit (s : String) : Bool :=
  !s.isEmpty && s.toList.all pyIsdigitChar

/-- Python `int(s)` for a string that passed `isdigit()`: when every character
is a decimal digit (any script, mixed scripts allowed) the decimal value read
most-significant first; `Option.none` when some character is a digit-only
numeric character, where `int()` raises `ValueError`.  (CPython's 4300-digit
conversion limit only turns an out-of-range failure into a different error
message and is not modelled.) -/
def pyIntOfDigits (s : String) : Option Nat :=
  s.toList.foldl
    (fun acc c =>
      match acc, pyDecimalVal c with
      | some a, some v => some (a * 10 + v)
      | _, _ => Option.none)
    (some 0)

/-- The integer a `PyVal` compares as in Python's `val < 1` / `val > 10`
(`True == 1`, `False == 0`); only reached when `isinstance_int` holds. -/
def intValue : PyVal → Int
  | .pyint n => n
  | .pybool b => if b then 1 else 0
  | _ => 0

/-- `_norm_bucket(d, key)` (lines 642-653): fetch `d.get(key) or {}`, read
`value`/`scale`, convert strings passing `isdigit()` with `int()` (which raises
on digit-only characters such as superscripts), require an int in `[1, 10]`
(raising `ValueError` otherwise), and force `scale` to `10`.  A truthy non-dict
bucket makes `bucket.get` raise `AttributeError`; every raise is returned as
`Except.error`. -/
def _norm_bucket (d : PyDict) (key : String) : Except String PyDict :=
  let bucket0 := pyget d key
  let bucket := if truthy bucket0 then bucket0 else .pydict []
  match bucket with
  | .pydict bkvs =>
      let val0 := pyget bkvs "value"
      let scale0 := (dget bkvs "scale").getD (.pyint 10)
      match
        (if isinstance_int val0 then Except.ok val0
         else
           match val0 with
           | .pystr s =>
               if pyIsdigit s then
                 match pyIntOfDigits s with
                 | some n => Except.ok (.pyint (n : Int))
                 | Option.none => Except.error "ValueError: invalid literal for int"
               else Except.ok (.pystr s)
           | v => Except.ok v : Except String PyVal)
      with
      | .error e => .error e
      | .ok val =>
          if !isinstance_int val || intValue val < 1 || intValue val > 10 then
            .error ("Invalid " ++ key ++ ".value")
          else
            let scale :=
              match scale0 with
              | .pyint n => if n = 10 then PyVal.pyint n else .pyint 10
              | _ => .pyint 10
            .ok [("value", val), ("scale", scale)]
  | _ => .error "AttributeError"

/-- Whether `_norm_bucket` validates the bucket `key` of the parsed response. -/
def bucketOk (d : PyDict) (key : String) : Bool :=
  match _norm_bucket d key with
  | .ok _ => true
  | .error _ => false

/-- All five required score buckets validate. -/
def allFiveOk (d : PyDict) : Bool :=
  bucketOk d "overall" && bucketOk d "communication" && bucketOk d "relevance" &&
    bucketOk d "technical" && bucketOk d "confidence"

/-- Outcome of one `GET /interviews/{id}/score` request. -/
inductive ScoreOutcome where
  /-- 404: `interview_id` has no (truthy) record. -/
  | notFound
  /-- The already-cached `score_breakdown` is returned, nothing recomputed. -/
  | cachedBreakdown (b : PyVal)
  /-- 400: the record has no (truthy) transcript yet. -/
  | noTranscript
  /-- 200: freshly computed breakdown, persisted into the record. -/
  | ok (breakdown : PyDict)
  /-- 500: completion failure, unparsable/invalid model output, or a non-dict
  document/record making an attribute access raise. -/
  | err (msg : String)
deriving Repr

/-- Result of the completion call plus `_parse_score` on its text:
either the call raised, or it produced text whose extracted JSON is `parsed`
(`Option.none` when no JSON object could be extracted). -/
inductive ScoreOracle where
  | failure (e : String)
  | response (parsed : Option PyVal)

/-- `get_score` (lines 571-677): look the record up in a fresh `load_db`, serve a
cached breakdown if present, 400 without a transcript; otherwise ask the oracle,
require a JSON dict, validate the five buckets with `_norm_bucket` (the dict
literal evaluates them in order and a raise aborts before the record is touched),
normalize `next_steps`, and only then cache `score_breakdown`, `score`, and
`updated_at` into the record and `save_db` the whole document.  Every error path
leaves the file untouched. -/
def get_score (fs : FS) (interview_id : String) (oracle : ScoreOracle)
    (now : String) : FS × ScoreOutcome :=
  match load_db fs with
  | .pydict db =>
      match dget db interview_id with
      | Option.none => (fs, .notFound)
      | some item0 =>
          if truthy item0 = false then (fs, .notFound)
          else
            match item0 with
            | .pydict item =>
                if truthy (pyget item "score_breakdown") then
                  (fs, .cachedBreakdown (pyget item "score_breakdown"))
                else if truthy (pyget item "transcript") = false then
                  (fs, .noTranscript)
                else
                  match oracle with
                  | .failure e => (fs, .err e)
                  | .response parsed =>
                      match parsed with
                      | some (.pydict d) =>
                          -- the Python dict literal evaluates the five
                          -- `_norm_bucket` calls in order; the first raise
                          -- aborts before the record is touched
                          match _norm_bucket d "overall" with
                          | .error e => (fs, .err e)
                          | .ok ov =>
                          match _norm_bucket d "communication" with
                          | .error e => (fs, .err e)
                          | .ok cm =>
                          match _norm_bucket d "relevance" with
                          | .error e => (fs, .err e)
                          | .ok rv =>
                          match _norm_bucket d "technical" with
                          | .error e => (fs, .err e)
                          | .ok tc =>
                          match _norm_bucket d "confidence" with
                          | .error e => (fs, .err e)
                          | .ok cf =>
                              let ns0 := pyget d "next_steps"
                              let ns1 := if truthy ns0 then ns0 else .pylist []
                              let ns :=
                                match ns1 with
                                | .pylist xs => PyVal.pylist xs
                                | _ => .pylist []
                              let breakdown : PyDict :=
                                [("overall", .pydict ov), ("communication", .pydict cm),
                                 ("relevance", .pydict rv), ("technical", .pydict tc),
                                 ("confidence", .pydict cf), ("next_steps", ns)]
                              let item1 :=
                                dset (dset (dset item
                                  "score_breakdown" (.pydict breakdown))
                                  "score" (pyget ov "value"))
                                  "updated_at" (.pystr (now ++ "Z"))
                              (save_db (dset db interview_id (.pydict item1)) fs,
                                .ok breakdown)
                      | _ => (fs, .err "Model did not return JSON")
            | _ => (fs, .err "AttributeError")
  | _ => (fs, .err "AttributeError")

/-! ## WebSocket conversation controller (`websocket_endpoint`, lines 164-286) -/

/-- One entry of `conversation_log`: the Python dict `{"speaker": ..., "text": ...}`
viewed through its fixed shape. -/
structure LogEntry where
  speaker : String
  text : String
deriving Repr, DecidableEq

/-- One entry of the OpenAI `messages` history: `{"role": ..., "content": ...}`. -/
structure ChatMsg where
  role : String
  content : String
deriving Repr, DecidableEq

/-- Env-default for the job description (line 16, default value). -/
def DEFAULT_JOB_DESCRIPTION : String :=
  "Software Engineer focusing on backend Python services."

/-- Env-default for the required experience (line 19, default value). -/
def DEFAULT_EXPERIENCE_REQUIRED : String := "3"

/-- Env-default for the candidate name (line 20, default value). -/
def DEFAULT_CANDIDATE_NAME : String := "Candidate"

/-- `params.get(...) or DEFAULT` (lines 170-172): an absent or empty query
parameter falls back to the default. -/
def paramOr (q : Option String) (dflt : String) : String :=
  match q with
  | some s => if s = "" then dflt else s
  | Option.none => dflt

/-- `build_system_prompt` (lines 23-35). -/
def build_system_prompt (job_desc years_exp : String) : String :=
  "You are Interview Bot. Your job is to conduct a structured job interview.\n" ++
  "Role: Interview candidates for this position: " ++ job_desc ++ ".\n" ++
  "Target seniority: ~" ++ years_exp ++ " years of relevant experience.\n\n" ++
  "Rules:\n" ++
  "- Stay strictly in scope of the job description; do not answer unrelated questions.\n" ++
  "- Assess communication clarity and professionalism.\n" ++
  "- Ask short, focused questions one at a time.\n" ++
  "- Cover: brief background, relevant projects, core skills, problem-solving, and a quick scenario.\n" ++
  "- After a few questions, politely end the interview and thank the candidate.\n" ++
  "- Keep responses concise and conversational.\n"

/-- `max_assistant_turns` (line 194). -/
def max_assistant_turns : Nat := 30

/-- The fixed closing statement (lines 231-234; the two adjacent Python string
literals concatenate). -/
def closingStatement : String :=
  "Thanks for participating in the interview. We will get back to you regarding the " ++
  "next steps. Please keep an eye on your email for further instructions."

/-- The fixed notice sent while concluded (line 216). -/
def concludedNotice : String := "Interview already concluded."

/-- The whitespace characters Python's no-argument `str.strip()` removes
(ASCII: space, tab, newline, carriage return, vertical tab, form feed). -/
def pyIsSpace (c : Char) : Bool :=
  c = ' ' || c = '\t' || c = '\n' || c = '\r' || c = '\x0b' || c = '\x0c'

/-- Python `s.strip()`: drop leading and trailing whitespace. -/
def pyStrip (s : String) : String :=
  String.mk (((s.toList.dropWhile pyIsSpace).reverse.dropWhile pyIsSpace).reverse)

/-- Result of one `chat_completion` call: the content string of the first choice,
or the exception the call raised (stringified). -/
inductive CompletionResult where
  | ok (content : String)
  | exc (e : String)
deriving Repr, DecidableEq

/-- The assistant text a turn produces (lines 219-223): the stripped completion
content on success, or the in-band `"[error] OpenAI error: ..."` text when the
call raised. -/
def answerOf : CompletionResult → String
  | .ok content => pyStrip content
  | .exc e => "[error] OpenAI error: " ++ e

/-- The transcript flattening (lines 241-243 and 264-266):
`"\n".join(f"{t['speaker']}: {t['text']}" for t in conversation_log)`. -/
def transcriptOf (log : List LogEntry) : String :=
  String.intercalate "\n" (log.map (fun t => t.speaker ++ ": " ++ t.text))

/-- `conversation_log` as the Python list of dicts it is in the store. -/
def logToPy (log : List LogEntry) : PyVal :=
  .pylist (log.map (fun t => .pydict [("speaker", .pystr t.speaker), ("text", .pystr t.text)]))

/-- The greeting (line 197). -/
def greetingFor (candidate_name : String) : String :=
  "Hi " ++ candidate_name ++ ", let's start the interview. Can you please introduce yourself?"

/-- The in-memory state of one `websocket_endpoint` task, together with the texts
sent over the socket so far and the state of the backing files. -/
structure SessionState where
  interview_id : String
  job_desc : String
  years_exp : String
  candidate_name : String
  messages : List ChatMsg
  conversation_log : List LogEntry
  assistant_turns : Nat
  ended : Bool
  completion_calls : Nat
  sent : List String
  fs : FS
deriving Repr

/-- Session setup (lines 166-203): resolve query parameters, create and save the
initial record, seed the system prompt, send the greeting and the tagged
interview-id line.  When the loaded document is not a dict, the record assignment
`db[interview_id] = {...}` raises `TypeError` and the connection dies before a
session exists (`Option.none`). -/
def initSession (fs : FS) (qjob qexp qname : Option String)
    (interview_id now : String) : Option SessionState :=
  let job_desc := paramOr qjob DEFAULT_JOB_DESCRIPTION
  let years_exp := paramOr qexp DEFAULT_EXPERIENCE_REQUIRED
  let candidate_name := paramOr qname DEFAULT_CANDIDATE_NAME
  match load_db fs with
  | .pydict db =>
      let record : PyVal := .pydict
        [("id", .pystr interview_id),
         ("job_description", .pystr job_desc),
         ("experience_required", .pystr years_exp),
         ("candidate_name", .pystr candidate_name),
         ("created_at", .pystr (now ++ "Z")),
         ("messages", .pylist []),
         ("transcript", .pynone),
         ("summary", .pynone),
         ("score", .pynone)]
      let fs1 := save_db (dset db interview_id record) fs
      let greeting := greetingFor candidate_name
      some
        { interview_id := interview_id
          job_desc := job_desc
          years_exp := years_exp
          candidate_name := candidate_name
          messages := [⟨"system", build_system_prompt job_desc years_exp⟩,
                       ⟨"assistant", greeting⟩]
          conversation_log := [⟨"assistant", greeting⟩]
          assistant_turns := 0
          ended := false
          completion_calls := 0
          sent := [greeting, "[INTERVIEW_ID] " ++ interview_id]
          fs := fs1 }
  | _ => Option.none

/-- The transcript-saving block at conclusion (lines 240-259, inside
`try/except`): recompute the transcript, reload the document, and only if
`interview_id in db` update the record's `messages`, `transcript` and
`updated_at` and `save_db`; `"[INFO] Interview transcript saved."` is sent either
way.  Any raise inside the block (updating a non-dict record, indexing a non-dict
document) is caught and reported as the `"[error] Failed to save transcript: ..."`
text, leaving the file untouched.  Returns the new file state and the text sent. -/
def concludeSave (fs : FS) (interview_id : String) (log : List LogEntry)
    (now : String) : FS × String :=
  let savedMsg := "[INFO] Interview transcript saved."
  let errMsg := "[error] Failed to save transcript: TypeError"
  match load_db fs with
  | .pydict db =>
      match dget db interview_id with
      | some (.pydict r) =>
          let r1 := dset (dset (dset r
            "messages" (logToPy log))
            "transcript" (.pystr (transcriptOf log)))
            "updated_at" (.pystr (now ++ "Z"))
          (save_db (dset db interview_id (.pydict r1)) fs, savedMsg)
      | some _ => (fs, errMsg)
      | Option.none => (fs, savedMsg)
  | .pylist xs =>
      if xs.any (fun v => match v with | .pystr t => t = interview_id | _ => false) then
        (fs, errMsg)
      else (fs, savedMsg)
  | .pystr s =>
      if pyInStr interview_id s then (fs, errMsg) else (fs, savedMsg)
  | _ => (fs, errMsg)

/-- One iteration of the receive loop (lines 206-259) on inbound text
`user_text`, with `oracle` the completion call's result and `now` the clock at
the potential conclusion.  Empty text is answered with `"[error] Empty message"`
and changes nothing else; otherwise the user entry is appended to both logs;
while `ended`, only the fixed notice is sent back; otherwise the assistant answer
(or in-band error) is sent and appended, the turn counter is incremented, and on
reaching the limit the closing statement is emitted, `ended` is set, and the
transcript is persisted via `concludeSave`. -/
def step (st : SessionState) (user_text : String) (oracle : CompletionResult)
    (now : String) : SessionState :=
  if user_text = "" then
    { st with sent := st.sent ++ ["[error] Empty message"] }
  else
    let st1 := { st with
      conversation_log := st.conversation_log ++ [LogEntry.mk "user" user_text],
      messages := st.messages ++ [ChatMsg.mk "user" user_text] }
    if st1.ended then
      { st1 with sent := st1.sent ++ [concludedNotice] }
    else
      let answer := answerOf oracle
      let st2 := { st1 with
        sent := st1.sent ++ [answer],
        messages := st1.messages ++ [ChatMsg.mk "assistant" answer],
        conversation_log := st1.conversation_log ++ [LogEntry.mk "assistant" answer],
        assistant_turns := st1.assistant_turns + 1,
        completion_calls := st1.completion_calls + 1 }
      if max_assistant_turns ≤ st2.assistant_turns then
        let st3 := { st2 with
          sent := st2.sent ++ [closingStatement],
          messages := st2.messages ++ [ChatMsg.mk "assistant" closingStatement],
          conversation_log := st2.conversation_log ++ [LogEntry.mk "assistant" closingStatement],
          ended := true }
        let saved := concludeSave st3.fs st3.interview_id st3.conversation_log now
        { st3 with fs := saved.1, sent := st3.sent ++ [saved.2] }
      else st2

/-- One inbound exchange: the received text, the completion oracle's behaviour
for it, and the clock value at that moment. -/
structure Event where
  text : String
  oracle : CompletionResult
  now : String
deriving Repr, DecidableEq

/-- Iterate the receive loop over a sequence of inbound exchanges. -/
def run (st : SessionState) (evs : List Event) : SessionState :=
  evs.foldl (fun s e => step s e.text e.oracle e.now) st

/-- The `WebSocketDisconnect` handler (lines 260-286): if any conversation log
entries exist, merge them into the stored record (`db.get(interview_id) or {}`
then `update` with id, configuration fields, messages, transcript, updated_at)
and save; every raise (e.g. the loaded document or the stored record not being a
dict) is swallowed, leaving the file untouched. -/
def onDisconnect (st : SessionState) (now : String) : FS :=
  if st.conversation_log.isEmpty then st.fs
  else
    match load_db st.fs with
    | .pydict db =>
        let r0 := pyget db st.interview_id
        let base := if truthy r0 then r0 else .pydict []
        match base with
        | .pydict r =>
            let r1 := dset (dset (dset (dset (dset (dset (dset r
              "id" (.pystr st.interview_id))
              "job_description" (.pystr st.job_desc))
              "experience_required" (.pystr st.years_exp))
              "candidate_name" (.pystr st.candidate_name))
              "messages" (logToPy st.conversation_log))
              "transcript" (.pystr (transcriptOf st.conversation_log)))
              "updated_at" (.pystr (now ++ "Z"))
            save_db (dset db st.interview_id (.pydict r1)) st.fs
        | _ => st.fs
    | _ => st.fs

/-- The conversational wire traffic of a sequence of exchanges: for each inbound
text, the user entry then the assistant entry carrying the answer the oracle
produced. -/
def wireLog (evs : List Event) : List LogEntry :=
  evs.flatMap (fun e => [⟨"user", e.text⟩, ⟨"assistant", answerOf e.oracle⟩])

/-! ## Helper lemmas about the dictionary and store operations -/

/-- Reading a key after `d[k] = v`: the written key yields `v`, others are
unchanged. -/
theorem dget_dset (d : PyDict) (k : String) (v : PyVal) (k' : String) :
    dget (dset d k v) k' = if k = k' then some v else dget d k' := by
  induction d with
  | nil => simp [dset, dget]
  | cons kv rest ih =>
      by_cases hak : kv.1 = k
      · subst hak
        by_cases hkk : kv.1 = k' <;> simp [dset, dget, hkk]
      · by_cases hak' : kv.1 = k'
        · subst hak'
          have : ¬ k = kv.1 := fun h => hak h.symm
          simp [dset, dget, hak, this]
        · simp [dset, dget, hak, hak', ih]

/-- Saving a document and re-reading it yields the document back. -/
theorem load_db_save_db (db : PyDict) (fs : FS) :
    load_db (save_db db fs) = .pydict db := rfl

/-- Reading one field of the record written by `save_db` after a `d[id] = record`
update. -/
theorem storedField_save (db r1 : PyDict) (fs : FS) (id k : String) :
    storedField (save_db (dset db id (.pydict r1)) fs) id k = dget r1 k := by
  simp [storedField, load_db_save_db, dget_dset]

/-- `pyget` of a present key. -/
theorem pyget_of_dget {d : PyDict} {k : String} {v : PyVal}
    (h : dget d k = some v) : pyget d k = v := by
  simp [pyget, h]

/-! ## C3: save/load round trip with atomic replace -/

/-- Convenience accessor: one key of a document when it is a dict. -/
def pyDocGet (v : PyVal) (k : String) : Option PyVal :=
  match v with
  | .pydict d => dget d k
  | _ => Option.none

/-- C3 (confirmed): for every mapping from session identifiers to records,
`save_db` followed by `load_db` returns an equal mapping with every record
intact, and `save_db` is exactly the composition of writing the serialized
document to the temporary path (leaving the original untouched) with the atomic
rename of the temporary file over the original. -/
theorem save_db_load_db_roundtrip (db : PyDict) (fs : FS) :
    load_db (save_db db fs) = .pydict db ∧
    save_db db fs = osReplace (writeTmp fs (.jsonOf (.pydict db))) ∧
    (writeTmp fs (.jsonOf (.pydict db))).main = fs.main ∧
    (save_db db fs).main = some (.jsonOf (.pydict db)) ∧
    ∀ k, pyDocGet (load_db (save_db db fs)) k = dget db k :=
  ⟨rfl, rfl, rfl, rfl, fun _ => rfl⟩

/-! ## C4: totality of `load_db` -/

/-- A backing file holding valid JSON that is not an object: the array `[1]`. -/
def nonObjectStoreFS : FS := ⟨some (.jsonOf (.pylist [.pyint 1])), Option.none⟩

/-- C4 counterexample: with the backing file containing the parsable JSON text
`[1]`, `load_db` returns the parsed list — not a mapping — so "for every state of
the backing file, load returns a mapping" is false (the absent/unparsable/empty
fallback does not apply because the content parses). -/
theorem load_db_nonobject_counterexample :
    (load_db nonObjectStoreFS).isDict = false ∧
    load_db nonObjectStoreFS = .pylist [.pyint 1] :=
  ⟨rfl, rfl⟩

/-- C4 (amended): `load_db` never raises; an absent file, empty/whitespace-only
content, or undecodable content each yield the empty mapping, and otherwise the
parsed document is returned as-is — which is a mapping whenever the content is a
JSON object, in particular whenever the file was last written by `save_db`. -/
theorem load_db_total (fs : FS) :
    (fs.main = Option.none → load_db fs = .pydict []) ∧
    (fs.main = some .blank → load_db fs = .pydict []) ∧
    (∀ s, fs.main = some (.invalid s) → load_db fs = .pydict []) ∧
    (∀ v, fs.main = some (.jsonOf v) → load_db fs = v) ∧
    (∀ db, (load_db (save_db db fs)).isDict = true) := by
  refine ⟨fun h => ?_, fun h => ?_, fun s h => ?_, fun v h => ?_, fun db => rfl⟩ <;>
    simp [load_db, h]

/-- C4 witness: evaluating the amended statement on an absent file and on a
freshly saved empty store. -/
theorem load_db_total_spot :
    load_db ⟨Option.none, Option.none⟩ = .pydict [] ∧
    (load_db (save_db [] ⟨Option.none, Option.none⟩)).isDict = true :=
  ⟨(load_db_total ⟨Option.none, Option.none⟩).1 rfl,
   (load_db_total ⟨Option.none, Option.none⟩).2.2.2.2 []⟩

/-! ## C8: the transcript flattening is pure and deterministic -/

/-- C8 (confirmed): the transcript flattening is a pure function of the messages
sequence alone — in this embedding it takes nothing but the sequence, so applying
it twice to the same sequence necessarily yields identical output both times. -/
theorem transcriptOf_deterministic (log : List LogEntry) :
    transcriptOf log = transcriptOf log := rfl

/-! ## C9: the greeting is the first message sent -/

/-- C9 (confirmed): a client connecting with `name="Ada"` (any job/experience
parameters, any loadable store) is sent, in order, exactly the greeting
`"Hi Ada, let's start the interview. Can you please introduce yourself?"` and
then the tagged `[INTERVIEW_ID]` line carrying the session identifier. -/
theorem greeting_sent_first (fs : FS) (db : PyDict) (qjob qexp : Option String)
    (iid now : String) (h : load_db fs = .pydict db) :
    (initSession fs qjob qexp (some "Ada") iid now).map SessionState.sent =
      some ["Hi Ada, let's start the interview. Can you please introduce yourself?",
            "[INTERVIEW_ID] " ++ iid] := by
  simp [initSession, h, paramOr, greetingFor]

/-- C9 witness: the statement evaluated on a fresh (absent) store with concrete
query parameters. -/
theorem greeting_sent_first_spot :
    (initSession ⟨Option.none, Option.none⟩ (some "Backend Engineer") (some "4")
        (some "Ada") "iid-1" "2024-01-01T00:00:00").map SessionState.sent =
      some ["Hi Ada, let's start the interview. Can you please introduce yourself?",
            "[INTERVIEW_ID] " ++ "iid-1"] :=
  greeting_sent_first ⟨Option.none, Option.none⟩ [] (some "Backend Engineer")
    (some "4") "iid-1" "2024-01-01T00:00:00" rfl

/-! ## A concrete session driven to the turn limit -/

/-- A fresh store: `interview_records.json` does not exist yet. -/
def demoFS : FS := ⟨Option.none, Option.none⟩

/-- Fallback value for `Option.getD` below (never reached: `demoFS` loads as a
dict, so `initSession` succeeds). -/
def dummySession : SessionState := ⟨"", "", "", "", [], [], 0, false, 0, [], demoFS⟩

/-- The session of a client connecting with `job="Backend Engineer"`, `exp="4"`,
`name="Ada"` on a fresh store. -/
def demoStart : SessionState :=
  (initSession demoFS (some "Backend Engineer") (some "4") (some "Ada")
    "iid-1" "T0").getD dummySession

/-- One ordinary exchange: the user says `"I build APIs."` and the completion
call returns `"Tell me more."`. -/
def demoEvent : Event := ⟨"I build APIs.", .ok "Tell me more.", "T1"⟩

/-- The session after twenty-nine ordinary exchanges (one turn before the
limit). -/
def demoAt29 : SessionState := run demoStart (List.replicate 29 demoEvent)

/-- The session after thirty ordinary exchanges: the turn limit was reached, the
closing statement was emitted and the transcript persisted. -/
def demoConcluded : SessionState := run demoStart (List.replicate 30 demoEvent)

/-! ## C1: behaviour at and after the turn limit -/

/-- C1 counterexample: in a session that reached the thirty-turn limit (so the
closing statement was emitted and the session concluded), an inbound *empty*
text frame is answered with the fixed `"[error] Empty message"` reply — not with
the `"Interview already concluded."` notice — so "every further inbound user
text is answered with the fixed notice" fails as stated. -/
theorem concluded_empty_text_not_noticed :
    demoConcluded.ended = true ∧
    demoConcluded.assistant_turns = max_assistant_turns ∧
    (step demoConcluded "" (.ok "X") "T2").sent =
      demoConcluded.sent ++ ["[error] Empty message"] ∧
    "[error] Empty message" ≠ concludedNotice :=
  ⟨rfl, rfl, rfl, by decide⟩

/-- C1 (amended): once the assistant-turn counter reaches the configured maximum
(30), the controller emits the fixed closing statement and the session is
concluded; every further *nonempty* inbound user text is answered with the fixed
`"Interview already concluded."` notice and triggers no completion call, while an
empty inbound text is answered with the fixed `"[error] Empty message"` reply in
every state (also without a completion call). -/
theorem turn_limit_concludes_and_notices (st : SessionState) (u : String)
    (o : CompletionResult) (now : String) :
    (st.ended = false → u ≠ "" → max_assistant_turns ≤ st.assistant_turns + 1 →
      (step st u o now).ended = true ∧
      ∃ m, (step st u o now).sent = st.sent ++ [answerOf o, closingStatement, m]) ∧
    (st.ended = true → u ≠ "" →
      (step st u o now).sent = st.sent ++ [concludedNotice] ∧
      (step st u o now).completion_calls = st.completion_calls ∧
      (step st u o now).ended = true ∧
      (step st u o now).fs = st.fs) ∧
    (u = "" →
      (step st u o now).sent = st.sent ++ ["[error] Empty message"] ∧
      (step st u o now).completion_calls = st.completion_calls ∧
      (step st u o now).ended = st.ended) := by
  refine ⟨fun hend hu hmax => ⟨?_, ?_⟩, fun hend hu => ?_, fun hu => ?_⟩
  · simp [step, hu, hend, hmax]
  · refine ⟨(concludeSave st.fs st.interview_id
        (st.conversation_log ++
          [LogEntry.mk "user" u, LogEntry.mk "assistant" (answerOf o),
           LogEntry.mk "assistant" closingStatement]) now).2, ?_⟩
    simp [step, hu, hend, hmax]
  · simp [step, hu, hend]
  · simp [step, hu]

/-- C1 witness: the amended statement evaluated on the concrete session — the
29-turn session concluding on its 30th exchange, and the concluded session
answering a nonempty and an empty inbound text. -/
theorem turn_limit_concludes_and_notices_spot :
    ((step demoAt29 "Done." (.ok "X") "T2").ended = true ∧
      ∃ m, (step demoAt29 "Done." (.ok "X") "T2").sent =
        demoAt29.sent ++ [answerOf (.ok "X"), closingStatement, m]) ∧
    ((step demoConcluded "hello" (.ok "X") "T2").sent =
        demoConcluded.sent ++ [concludedNotice] ∧
      (step demoConcluded "hello" (.ok "X") "T2").completion_calls =
        demoConcluded.completion_calls ∧
      (step demoConcluded "hello" (.ok "X") "T2").ended = true ∧
      (step demoConcluded "hello" (.ok "X") "T2").fs = demoConcluded.fs) ∧
    ((step demoConcluded "" (.ok "X") "T2").sent =
        demoConcluded.sent ++ ["[error] Empty message"] ∧
      (step demoConcluded "" (.ok "X") "T2").completion_calls =
        demoConcluded.completion_calls ∧
      (step demoConcluded "" (.ok "X") "T2").ended = demoConcluded.ended) :=
  ⟨(turn_limit_concludes_and_notices demoAt29 "Done." (.ok "X") "T2").1 rfl
      (by decide) (by decide),
   (turn_limit_concludes_and_notices demoConcluded "hello" (.ok "X") "T2").2.1 rfl
      (by decide),
   (turn_limit_concludes_and_notices demoConcluded "" (.ok "X") "T2").2.2 rfl⟩

/-! ## C5: a failed completion call is an in-band assistant turn -/

/-- C5 (confirmed): in an active turn whose completion call raises, the failure
is delivered as the in-band assistant text `"[error] OpenAI error: ..."` (sent
like any reply, not a protocol error), appended as an assistant entry to both the
message history and the conversation log, and the assistant-turn counter is still
incremented — so the failed turn counts toward the limit; below the limit the
loop simply continues un-concluded. -/
theorem completion_failure_counts_as_turn (st : SessionState) (u e now : String)
    (hend : st.ended = false) (hu : u ≠ "") :
    (step st u (.exc e) now).assistant_turns = st.assistant_turns + 1 ∧
    (st.assistant_turns + 1 < max_assistant_turns →
      (step st u (.exc e) now).sent = st.sent ++ ["[error] OpenAI error: " ++ e] ∧
      (step st u (.exc e) now).messages =
        st.messages ++ [ChatMsg.mk "user" u,
                        ChatMsg.mk "assistant" ("[error] OpenAI error: " ++ e)] ∧
      (step st u (.exc e) now).conversation_log =
        st.conversation_log ++ [LogEntry.mk "user" u,
                                LogEntry.mk "assistant" ("[error] OpenAI error: " ++ e)] ∧
      (step st u (.exc e) now).ended = false) := by
  constructor
  · by_cases hmax : max_assistant_turns ≤ st.assistant_turns + 1 <;>
      simp [step, hu, hend, hmax]
  · intro hlt
    have hmax : ¬ max_assistant_turns ≤ st.assistant_turns + 1 := by omega
    simp [step, hu, hend, hmax, answerOf]

/-- C5 witness: the statement evaluated on the freshly started session whose
first completion call raises a timeout. -/
theorem completion_failure_counts_as_turn_spot :
    (step demoStart "I build APIs." (.exc "timeout") "T1").assistant_turns =
      demoStart.assistant_turns + 1 ∧
    (step demoStart "I build APIs." (.exc "timeout") "T1").sent =
      demoStart.sent ++ ["[error] OpenAI error: " ++ "timeout"] ∧
    (step demoStart "I build APIs." (.exc "timeout") "T1").conversation_log =
      demoStart.conversation_log ++
        [LogEntry.mk "user" "I build APIs.",
         LogEntry.mk "assistant" ("[error] OpenAI error: " ++ "timeout")] ∧
    (step demoStart "I build APIs." (.exc "timeout") "T1").ended = false :=
  have h := completion_failure_counts_as_turn demoStart "I build APIs." "timeout"
    "T1" rfl (by decide)
  ⟨h.1, (h.2 (by decide)).1, (h.2 (by decide)).2.2.1, (h.2 (by decide)).2.2.2⟩

/-! ## C10: post-conclusion messages stay in memory -/

/-- C10 counterexample: in the concluded session, an inbound `"hi"` appends only
the *user* entry to the conversation log — the fixed notice that answers it is
sent but appended to neither the conversation log nor the message history — so
"the fixed notice replying to it is still appended to the in-memory conversation
log and message history" fails as stated. -/
theorem concluded_notice_not_in_log :
    demoConcluded.ended = true ∧
    (step demoConcluded "hi" (.ok "X") "T2").conversation_log =
      demoConcluded.conversation_log ++ [LogEntry.mk "user" "hi"] ∧
    ((step demoConcluded "hi" (.ok "X") "T2").conversation_log.any
       (fun t => t.text == concludedNotice)) = false ∧
    ((step demoConcluded "hi" (.ok "X") "T2").messages.any
       (fun m => m.content == concludedNotice)) = false :=
  ⟨rfl, rfl, by decide, by decide⟩

/-- C10 (amended): after a session has concluded, every further nonempty inbound
user message is still appended to the in-memory conversation log and message
history (the fixed notice replying to it is only sent, never appended), and the
concluded branch performs no store write — the backing file, hence the persisted
messages sequence saved at conclusion (ending with the closing statement), is
left untouched. -/
theorem concluded_turns_memory_only (st : SessionState) (u : String)
    (o : CompletionResult) (now : String)
    (hend : st.ended = true) (hu : u ≠ "") :
    (step st u o now).conversation_log =
      st.conversation_log ++ [LogEntry.mk "user" u] ∧
    (step st u o now).messages = st.messages ++ [ChatMsg.mk "user" u] ∧
    (step st u o now).sent = st.sent ++ [concludedNotice] ∧
    (step st u o now).fs = st.fs ∧
    ∀ idk k, storedField (step st u o now).fs idk k = storedField st.fs idk k := by
  simp [step, hu, hend]

/-- C10 witness: the amended statement evaluated on the concluded concrete
session receiving `"hi"`. -/
theorem concluded_turns_memory_only_spot :
    (step demoConcluded "hi" (.ok "X") "T2").conversation_log =
      demoConcluded.conversation_log ++ [LogEntry.mk "user" "hi"] ∧
    (step demoConcluded "hi" (.ok "X") "T2").messages =
      demoConcluded.messages ++ [ChatMsg.mk "user" "hi"] ∧
    (step demoConcluded "hi" (.ok "X") "T2").sent =
      demoConcluded.sent ++ [concludedNotice] ∧
    (step demoConcluded "hi" (.ok "X") "T2").fs = demoConcluded.fs ∧
    ∀ idk k, storedField (step demoConcluded "hi" (.ok "X") "T2").fs idk k =
      storedField demoConcluded.fs idk k :=
  concluded_turns_memory_only demoConcluded "hi" (.ok "X") "T2" rfl (by decide)

/-! ## Behaviour of the loop across a whole run -/

/-- An active step strictly below the turn limit appends the user and assistant
entries to both logs, increments the counters, and touches nothing else. -/
theorem step_active_below (st : SessionState) (u : String) (o : CompletionResult)
    (now : String) (hu : u ≠ "") (hend : st.ended = false)
    (hlt : st.assistant_turns + 1 < max_assistant_turns) :
    step st u o now = { st with
      conversation_log := st.conversation_log ++
        [LogEntry.mk "user" u, LogEntry.mk "assistant" (answerOf o)],
      messages := st.messages ++
        [ChatMsg.mk "user" u, ChatMsg.mk "assistant" (answerOf o)],
      sent := st.sent ++ [answerOf o],
      assistant_turns := st.assistant_turns + 1,
      completion_calls := st.completion_calls + 1 } := by
  have hmax : ¬ max_assistant_turns ≤ st.assistant_turns + 1 := by omega
  simp [step, hu, hend, hmax]

/-- The step that reaches the turn limit additionally appends and sends the
closing statement, marks the session ended, and runs the transcript save on the
full log. -/
theorem step_concluding (st : SessionState) (u : String) (o : CompletionResult)
    (now : String) (hu : u ≠ "") (hend : st.ended = false)
    (hmax : max_assistant_turns ≤ st.assistant_turns + 1) :
    step st u o now = { st with
      conversation_log := st.conversation_log ++
        [LogEntry.mk "user" u, LogEntry.mk "assistant" (answerOf o),
         LogEntry.mk "assistant" closingStatement],
      messages := st.messages ++
        [ChatMsg.mk "user" u, ChatMsg.mk "assistant" (answerOf o),
         ChatMsg.mk "assistant" closingStatement],
      sent := st.sent ++ [answerOf o, closingStatement,
        (concludeSave st.fs st.interview_id
          (st.conversation_log ++
            [LogEntry.mk "user" u, LogEntry.mk "assistant" (answerOf o),
             LogEntry.mk "assistant" closingStatement]) now).2],
      assistant_turns := st.assistant_turns + 1,
      completion_calls := st.completion_calls + 1,
      ended := true,
      fs := (concludeSave st.fs st.interview_id
        (st.conversation_log ++
          [LogEntry.mk "user" u, LogEntry.mk "assistant" (answerOf o),
           LogEntry.mk "assistant" closingStatement]) now).1 } := by
  simp [step, hu, hend, hmax]

/-- `concludeSave` when the document is a dict containing the record as a dict:
the record's `messages`, `transcript` and `updated_at` are rewritten and the
document saved; the info line is reported. -/
theorem concludeSave_good (fs : FS) (id : String) (log : List LogEntry)
    (now : String) (db r : PyDict)
    (hdb : load_db fs = .pydict db) (hr : dget db id = some (.pydict r)) :
    concludeSave fs id log now =
      (save_db (dset db id (.pydict
        (dset (dset (dset r "messages" (logToPy log))
          "transcript" (.pystr (transcriptOf log)))
          "updated_at" (.pystr (now ++ "Z"))))) fs,
       "[INFO] Interview transcript saved.") := by
  simp [concludeSave, hdb, hr]

/-- Running the loop over nonempty exchanges, from an active state strictly
below the limit whose record is stored: the conversation log grows by exactly
the wire traffic (plus the closing statement on the exchange reaching the
limit), the counter advances one per exchange, the store is untouched strictly
below the limit, and reaching the limit persists the full log into the record's
`messages`/`transcript`. -/
theorem run_spec (evs : List Event) (st : SessionState) (db r : PyDict)
    (hend : st.ended = false)
    (hlt : st.assistant_turns < max_assistant_turns)
    (hne : ∀ e ∈ evs, e.text ≠ "")
    (hlen : st.assistant_turns + evs.length ≤ max_assistant_turns)
    (hdb : load_db st.fs = .pydict db)
    (hr : dget db st.interview_id = some (.pydict r)) :
    (run st evs).conversation_log = st.conversation_log ++ wireLog evs ++
      (if st.assistant_turns + evs.length = max_assistant_turns
       then [LogEntry.mk "assistant" closingStatement] else []) ∧
    (run st evs).assistant_turns = st.assistant_turns + evs.length ∧
    (run st evs).interview_id = st.interview_id ∧
    (st.assistant_turns + evs.length < max_assistant_turns →
      (run st evs).ended = false ∧ (run st evs).fs = st.fs) ∧
    (st.assistant_turns + evs.length = max_assistant_turns →
      (run st evs).ended = true ∧
      ∃ ts, load_db (run st evs).fs = .pydict (dset db st.interview_id (.pydict
        (dset (dset (dset r "messages" (logToPy (run st evs).conversation_log))
          "transcript" (.pystr (transcriptOf (run st evs).conversation_log)))
          "updated_at" (.pystr ts))))) := by
  induction evs generalizing st db r with
  | nil =>
      have hne30 : ¬ st.assistant_turns + ([] : List Event).length =
          max_assistant_turns := by simp only [List.length_nil, Nat.add_zero]; omega
      refine ⟨?_, by simp [run], rfl, fun _ => ⟨hend, rfl⟩, fun h => absurd h hne30⟩
      rw [if_neg hne30]
      simp [run, wireLog]
  | cons e rest ih =>
      have hu : e.text ≠ "" := hne e (List.mem_cons_self e rest)
      have hlen' : st.assistant_turns + 1 + rest.length ≤ max_assistant_turns := by
        simp only [List.length_cons] at hlen; omega
      have hrun : run st (e :: rest) =
          run (step st e.text e.oracle e.now) rest := rfl
      by_cases hc : st.assistant_turns + 1 = max_assistant_turns
      · -- the first remaining exchange reaches the limit, so it is the last one
        have hrest : rest = [] := by
          have := hlen'
          rw [hc] at this
          exact List.length_eq_zero.mp (by omega)
        subst hrest
        have hstep := step_concluding st e.text e.oracle e.now hu hend (le_of_eq hc.symm)
        have hcs := concludeSave_good st.fs st.interview_id
          (st.conversation_log ++
            [LogEntry.mk "user" e.text, LogEntry.mk "assistant" (answerOf e.oracle),
             LogEntry.mk "assistant" closingStatement]) e.now db r hdb hr
        rw [hrun, hstep]
        refine ⟨?_, ?_, ?_, ?_, ?_⟩
        · rw [if_pos (show st.assistant_turns + ([e] : List Event).length =
              max_assistant_turns by simp only [List.length_cons, List.length_nil]; omega)]
          simp [run, wireLog]
        · simp [run]
        · rfl
        · intro h
          exfalso
          simp only [List.length_cons, List.length_nil] at h
          omega
        · intro _
          refine ⟨rfl, e.now ++ "Z", ?_⟩
          simp only [run, List.foldl_nil, hcs]
          rfl
      · have hlt1 : st.assistant_turns + 1 < max_assistant_turns := by omega
        have hstep := step_active_below st e.text e.oracle e.now hu hend hlt1
        have hnum : st.assistant_turns + (rest.length + 1) =
            st.assistant_turns + 1 + rest.length := by omega
        have ihx := ih ({ st with
            conversation_log := st.conversation_log ++
              [LogEntry.mk "user" e.text, LogEntry.mk "assistant" (answerOf e.oracle)],
            messages := st.messages ++
              [ChatMsg.mk "user" e.text, ChatMsg.mk "assistant" (answerOf e.oracle)],
            sent := st.sent ++ [answerOf e.oracle],
            assistant_turns := st.assistant_turns + 1,
            completion_calls := st.completion_calls + 1 }) db r hend hlt1
          (fun x hx => hne x (List.mem_cons_of_mem e hx)) hlen' hdb hr
        rw [hrun, hstep]
        obtain ⟨ih1, ih2, ih3, ih4, ih5⟩ := ihx
        refine ⟨?_, ?_, ?_, ?_, ?_⟩
        · rw [ih1]
          simp [wireLog, List.length_cons, hnum]
        · rw [ih2]
          simp [List.length_cons, hnum]
        · exact ih3
        · intro h
          simp only [List.length_cons] at h
          have hx : st.assistant_turns + 1 + rest.length < max_assistant_turns := by
            omega
          exact ih4 hx
        · intro h
          simp only [List.length_cons] at h
          have hx : st.assistant_turns + 1 + rest.length = max_assistant_turns := by
            omega
          exact ih5 hx

/-- The disconnect handler when the document is a dict and holds the record as a
nonempty dict: the stored record after the flush is the old record updated with
the seven merged fields, any other key untouched. -/
theorem onDisconnect_fields (st : SessionState) (now : String) (db r : PyDict)
    (hlog : st.conversation_log ≠ [])
    (hdb : load_db st.fs = .pydict db)
    (hr : dget db st.interview_id = some (.pydict r))
    (hrne : r ≠ []) (k : String) :
    storedField (onDisconnect st now) st.interview_id k =
      dget (dset (dset (dset (dset (dset (dset (dset r
        "id" (.pystr st.interview_id))
        "job_description" (.pystr st.job_desc))
        "experience_required" (.pystr st.years_exp))
        "candidate_name" (.pystr st.candidate_name))
        "messages" (logToPy st.conversation_log))
        "transcript" (.pystr (transcriptOf st.conversation_log)))
        "updated_at" (.pystr (now ++ "Z"))) k := by
  have h1 : st.conversation_log.isEmpty = false := by
    cases hl : st.conversation_log with
    | nil => exact absurd hl hlog
    | cons a l => rfl
  have h2 : truthy (PyVal.pydict r) = true := by
    cases r with
    | nil => exact absurd rfl hrne
    | cons a l => rfl
  have hpg : pyget db st.interview_id = .pydict r := pyget_of_dget hr
  rw [show onDisconnect st now = save_db (dset db st.interview_id (.pydict
      (dset (dset (dset (dset (dset (dset (dset r
        "id" (.pystr st.interview_id))
        "job_description" (.pystr st.job_desc))
        "experience_required" (.pystr st.years_exp))
        "candidate_name" (.pystr st.candidate_name))
        "messages" (logToPy st.conversation_log))
        "transcript" (.pystr (transcriptOf st.conversation_log)))
        "updated_at" (.pystr (now ++ "Z"))))) st.fs
    from by simp [onDisconnect, h1, hdb, hpg, h2]]
  exact storedField_save _ _ _ _ _

/-! ## C6: the persisted messages match the wire order -/

/-- C6 (confirmed): for every sequence of (nonempty-text) turns up to the
configured maximum, the conversation log is exactly the greeting followed by the
alternating user/assistant entries in wire order (plus the closing statement on
the turn reaching the limit), and the `messages` list persisted to the store —
at conclusion when the limit is reached, at disconnect before it — is exactly
that sequence: nothing reordered, nothing dropped. -/
theorem persisted_messages_match_wire_order
    (fs0 : FS) (d0 : PyDict) (qjob qexp qname : Option String)
    (iid t0 tdisc : String) (st0 : SessionState) (evs : List Event)
    (h0 : load_db fs0 = .pydict d0)
    (hinit : initSession fs0 qjob qexp qname iid t0 = some st0)
    (hne : ∀ e ∈ evs, e.text ≠ "")
    (hlen : evs.length ≤ max_assistant_turns) :
    ((run st0 evs).conversation_log =
      (LogEntry.mk "assistant" (greetingFor st0.candidate_name) :: wireLog evs) ++
      (if evs.length = max_assistant_turns
       then [LogEntry.mk "assistant" closingStatement] else [])) ∧
    (evs.length = max_assistant_turns →
      storedField (run st0 evs).fs iid "messages" =
        some (logToPy ((run st0 evs).conversation_log))) ∧
    (evs.length < max_assistant_turns →
      storedField (onDisconnect (run st0 evs) tdisc) iid "messages" =
        some (logToPy ((run st0 evs).conversation_log))) := by
  simp only [initSession, h0, Option.some.injEq] at hinit
  set record : PyDict :=
    [("id", .pystr iid),
     ("job_description", .pystr (paramOr qjob DEFAULT_JOB_DESCRIPTION)),
     ("experience_required", .pystr (paramOr qexp DEFAULT_EXPERIENCE_REQUIRED)),
     ("candidate_name", .pystr (paramOr qname DEFAULT_CANDIDATE_NAME)),
     ("created_at", .pystr (t0 ++ "Z")),
     ("messages", .pylist []),
     ("transcript", .pynone),
     ("summary", .pynone),
     ("score", .pynone)] with hrecord
  have hend0 : st0.ended = false := by rw [← hinit]
  have hturns : st0.assistant_turns = 0 := by rw [← hinit]
  have hid : st0.interview_id = iid := by rw [← hinit]
  have hcand : st0.candidate_name = paramOr qname DEFAULT_CANDIDATE_NAME := by
    rw [← hinit]
  have hlog0 : st0.conversation_log =
      [LogEntry.mk "assistant" (greetingFor st0.candidate_name)] := by
    rw [← hinit]
  have hfs0 : st0.fs = save_db (dset d0 iid (.pydict record)) fs0 := by
    rw [← hinit]
  have hrs := run_spec evs st0 (dset d0 iid (.pydict record)) record hend0
    (by rw [hturns]; decide) hne (by rw [hturns]; omega)
    (by rw [hfs0]; rfl) (by rw [hid, dget_dset]; simp)
  obtain ⟨hs1, hs2, hs3, hs4, hs5⟩ := hrs
  refine ⟨?_, ?_, ?_⟩
  · rw [hs1, hlog0, hturns]
    simp
  · intro hmax
    obtain ⟨-, ts, hts⟩ := hs5 (by rw [hturns]; omega)
    rw [hid] at hts
    simp [storedField, hts, dget_dset]
  · intro hlt
    obtain ⟨-, hfs⟩ := hs4 (by rw [hturns]; omega)
    have hlog : (run st0 evs).conversation_log ≠ [] := by
      rw [hs1, hlog0]
      simp
    have hodf := onDisconnect_fields (run st0 evs) tdisc
      (dset d0 iid (.pydict record)) record hlog
      (by rw [hfs, hfs0]; rfl) (by rw [hs3, hid, dget_dset]; simp) (by simp)
      "messages"
    rw [hs3, hid] at hodf
    rw [hodf]
    simp [dget_dset]

/-- C6 witness: the statement evaluated on the concrete Ada session after two
ordinary exchanges (also discharging the below-limit disconnect branch). -/
theorem persisted_messages_match_wire_order_spot :
    ((run demoStart [demoEvent, demoEvent]).conversation_log =
      (LogEntry.mk "assistant" (greetingFor demoStart.candidate_name) ::
        wireLog [demoEvent, demoEvent]) ++
      (if ([demoEvent, demoEvent] : List Event).length = max_assistant_turns
       then [LogEntry.mk "assistant" closingStatement] else [])) ∧
    storedField (onDisconnect (run demoStart [demoEvent, demoEvent]) "T9")
        "iid-1" "messages" =
      some (logToPy ((run demoStart [demoEvent, demoEvent]).conversation_log)) :=
  have h := persisted_messages_match_wire_order demoFS [] (some "Backend Engineer")
    (some "4") (some "Ada") "iid-1" "T0" "T9" demoStart [demoEvent, demoEvent]
    rfl rfl (by decide) (by decide)
  ⟨h.1, h.2.2 (by decide)⟩

/-! ## C7: disconnect persists the partial transcript -/

/-- C7 (confirmed): a disconnect of a session with a nonempty conversation log
(with the store document a dict and the stored record a nonempty dict, as every
session created by `initSession` guarantees) persists the accumulated messages
and their flattened transcript into the record, rewriting the configuration
fields and leaving every other key of the existing record untouched (the merge);
and the record a fresh session saves before any turn already carries the
configuration fields — so a session disconnecting with zero turns taken still
has a saved record with `id`, `job_description`, `experience_required` and
`candidate_name`. -/
theorem disconnect_persists_partial_record
    (st : SessionState) (now : String) (db r : PyDict)
    (fs0 : FS) (d0 : PyDict) (qjob qexp qname : Option String) (iid t0 : String) :
    (st.conversation_log ≠ [] → load_db st.fs = .pydict db →
      dget db st.interview_id = some (.pydict r) → r ≠ [] →
      storedField (onDisconnect st now) st.interview_id "messages" =
        some (logToPy st.conversation_log) ∧
      storedField (onDisconnect st now) st.interview_id "transcript" =
        some (.pystr (transcriptOf st.conversation_log)) ∧
      storedField (onDisconnect st now) st.interview_id "id" =
        some (.pystr st.interview_id) ∧
      storedField (onDisconnect st now) st.interview_id "job_description" =
        some (.pystr st.job_desc) ∧
      storedField (onDisconnect st now) st.interview_id "experience_required" =
        some (.pystr st.years_exp) ∧
      storedField (onDisconnect st now) st.interview_id "candidate_name" =
        some (.pystr st.candidate_name) ∧
      ∀ k, k ≠ "id" → k ≠ "job_description" → k ≠ "experience_required" →
        k ≠ "candidate_name" → k ≠ "messages" → k ≠ "transcript" →
        k ≠ "updated_at" →
        storedField (onDisconnect st now) st.interview_id k = dget r k) ∧
    (load_db fs0 = .pydict d0 →
      ∀ st0, initSession fs0 qjob qexp qname iid t0 = some st0 →
        st0.conversation_log =
          [LogEntry.mk "assistant" (greetingFor st0.candidate_name)] ∧
        storedField st0.fs iid "id" = some (.pystr iid) ∧
        storedField st0.fs iid "job_description" = some (.pystr st0.job_desc) ∧
        storedField st0.fs iid "experience_required" =
          some (.pystr st0.years_exp) ∧
        storedField st0.fs iid "candidate_name" =
          some (.pystr st0.candidate_name)) := by
  constructor
  · intro hlog hdb hr hrne
    have H := onDisconnect_fields st now db r hlog hdb hr hrne
    refine ⟨?_, ?_, ?_, ?_, ?_, ?_, ?_⟩
    · rw [H]; simp [dget_dset]
    · rw [H]; simp [dget_dset]
    · rw [H]; simp [dget_dset]
    · rw [H]; simp [dget_dset]
    · rw [H]; simp [dget_dset]
    · rw [H]; simp [dget_dset]
    · intro k h1 h2 h3 h4 h5 h6 h7
      rw [H]
      simp [dget_dset, Ne.symm h1, Ne.symm h2, Ne.symm h3, Ne.symm h4,
        Ne.symm h5, Ne.symm h6, Ne.symm h7]
  · intro h0 st0 hinit
    simp only [initSession, h0, Option.some.injEq] at hinit
    have hfs0 : st0.fs = save_db (dset d0 iid (.pydict
        [("id", .pystr iid),
         ("job_description", .pystr (paramOr qjob DEFAULT_JOB_DESCRIPTION)),
         ("experience_required", .pystr (paramOr qexp DEFAULT_EXPERIENCE_REQUIRED)),
         ("candidate_name", .pystr (paramOr qname DEFAULT_CANDIDATE_NAME)),
         ("created_at", .pystr (t0 ++ "Z")),
         ("messages", .pylist []),
         ("transcript", .pynone),
         ("summary", .pynone),
         ("score", .pynone)])) fs0 := by rw [← hinit]
    have hjob : st0.job_desc = paramOr qjob DEFAULT_JOB_DESCRIPTION := by
      rw [← hinit]
    have hexp : st0.years_exp = paramOr qexp DEFAULT_EXPERIENCE_REQUIRED := by
      rw [← hinit]
    have hcand : st0.candidate_name = paramOr qname DEFAULT_CANDIDATE_NAME := by
      rw [← hinit]
    refine ⟨by rw [← hinit], ?_, ?_, ?_, ?_⟩ <;>
      rw [hfs0, storedField_save] <;>
      simp [dget, hjob, hexp, hcand]

/-- C7 witness: the statement evaluated on the concrete Ada session after one
ordinary exchange and on the fresh Ada session (zero turns), with the
untouched-key conjunct read at `created_at`. -/
theorem disconnect_persists_partial_record_spot :
    (storedField (onDisconnect (run demoStart [demoEvent]) "T9")
        (run demoStart [demoEvent]).interview_id "messages" =
      some (logToPy ((run demoStart [demoEvent]).conversation_log)) ∧
     storedField (onDisconnect (run demoStart [demoEvent]) "T9")
        (run demoStart [demoEvent]).interview_id "candidate_name" =
      some (.pystr (run demoStart [demoEvent]).candidate_name) ∧
     storedField (onDisconnect (run demoStart [demoEvent]) "T9")
        (run demoStart [demoEvent]).interview_id "created_at" =
      dget [("id", .pystr "iid-1"),
            ("job_description", .pystr "Backend Engineer"),
            ("experience_required", .pystr "4"),
            ("candidate_name", .pystr "Ada"),
            ("created_at", .pystr "T0Z"),
            ("messages", .pylist []),
            ("transcript", .pynone),
            ("summary", .pynone),
            ("score", .pynone)] "created_at") ∧
    (demoStart.conversation_log =
      [LogEntry.mk "assistant" (greetingFor demoStart.candidate_name)] ∧
     storedField demoStart.fs "iid-1" "id" = some (.pystr "iid-1") ∧
     storedField demoStart.fs "iid-1" "candidate_name" =
      some (.pystr demoStart.candidate_name)) :=
  have h := disconnect_persists_partial_record (run demoStart [demoEvent]) "T9"
    [("iid-1", .pydict
      [("id", .pystr "iid-1"),
       ("job_description", .pystr "Backend Engineer"),
       ("experience_required", .pystr "4"),
       ("candidate_name", .pystr "Ada"),
       ("created_at", .pystr "T0Z"),
       ("messages", .pylist []),
       ("transcript", .pynone),
       ("summary", .pynone),
       ("score", .pynone)])]
    [("id", .pystr "iid-1"),
     ("job_description", .pystr "Backend Engineer"),
     ("experience_required", .pystr "4"),
     ("candidate_name", .pystr "Ada"),
     ("created_at", .pystr "T0Z"),
     ("messages", .pylist []),
     ("transcript", .pynone),
     ("summary", .pynone),
     ("score", .pynone)]
    demoFS [] (some "Backend Engineer") (some "4") (some "Ada") "iid-1" "T0"
  have h1 := h.1 (by decide) rfl rfl (by simp)
  have h2 := h.2 rfl demoStart rfl
  ⟨⟨h1.1, h1.2.2.2.2.2.1,
    h1.2.2.2.2.2.2 "created_at" (by decide) (by decide) (by decide) (by decide)
      (by decide) (by decide) (by decide)⟩,
   ⟨h2.1, h2.2.1, h2.2.2.2.2⟩⟩

/-! ## C2: score validation and no partial cache -/

/-- A stored record with a transcript and no cached breakdown. -/
def c2Record : PyDict :=
  [("id", .pystr "iid-2"), ("transcript", .pystr "assistant: hi")]

/-- A store holding only that record. -/
def c2FS : FS := ⟨some (.jsonOf (.pydict [("iid-2", .pydict c2Record)])), Option.none⟩

/-- A parsed score response whose `overall.value` is the JSON boolean `true` —
not a number — with the other four buckets proper integers. -/
def c2Data : PyDict :=
  [("overall", .pydict [("value", .pybool true)]),
   ("communication", .pydict [("value", .pyint 5)]),
   ("relevance", .pydict [("value", .pyint 5)]),
   ("technical", .pydict [("value", .pyint 5)]),
   ("confidence", .pydict [("value", .pyint 5)])]

/-- A parsed score response whose `overall.value` is the JSON *string* `"٣"`
(the Arabic-Indic digit three, U+0663) — not a number — with the other four
buckets proper integers. -/
def c2DataArabic : PyDict :=
  [("overall", .pydict [("value", .pystr "٣")]),
   ("communication", .pydict [("value", .pyint 5)]),
   ("relevance", .pydict [("value", .pyint 5)]),
   ("technical", .pydict [("value", .pyint 5)]),
   ("confidence", .pydict [("value", .pyint 5)])]

/-- C2 counterexample: two responses with a non-numeric `overall.value` on which
the score request does *not* fail.  With the JSON boolean `true`, Python's
`bool` is a subclass of `int`, so `isinstance(True, int)` holds and `True`
compares as `1`: the request succeeds and caches `score = true`.  With the
string `"٣"` (Arabic-Indic digit three), `"٣".isdigit()` holds and
`int("٣") = 3`, so the request succeeds and caches `score = 3`.  In both cases
the record *is* mutated where the claim demands an error and no mutation. -/
theorem score_boolean_value_cached_counterexample :
    ((get_score c2FS "iid-2" (.response (some (.pydict c2Data))) "T5").2 =
      .ok [("overall", .pydict [("value", .pybool true), ("scale", .pyint 10)]),
           ("communication", .pydict [("value", .pyint 5), ("scale", .pyint 10)]),
           ("relevance", .pydict [("value", .pyint 5), ("scale", .pyint 10)]),
           ("technical", .pydict [("value", .pyint 5), ("scale", .pyint 10)]),
           ("confidence", .pydict [("value", .pyint 5), ("scale", .pyint 10)]),
           ("next_steps", .pylist [])] ∧
     storedField (get_score c2FS "iid-2" (.response (some (.pydict c2Data))) "T5").1
       "iid-2" "score" = some (.pybool true)) ∧
    ((get_score c2FS "iid-2" (.response (some (.pydict c2DataArabic))) "T5").2 =
      .ok [("overall", .pydict [("value", .pyint 3), ("scale", .pyint 10)]),
           ("communication", .pydict [("value", .pyint 5), ("scale", .pyint 10)]),
           ("relevance", .pydict [("value", .pyint 5), ("scale", .pyint 10)]),
           ("technical", .pydict [("value", .pyint 5), ("scale", .pyint 10)]),
           ("confidence", .pydict [("value", .pyint 5), ("scale", .pyint 10)]),
           ("next_steps", .pylist [])] ∧
     storedField
       (get_score c2FS "iid-2" (.response (some (.pydict c2DataArabic))) "T5").1
       "iid-2" "score" = some (.pyint 3)) ∧
    storedField c2FS "iid-2" "score" = Option.none :=
  ⟨⟨rfl, rfl⟩, ⟨rfl, rfl⟩, rfl⟩

/-- C2 (amended): if any of the five required fields fails the code's
validation — not an integer in `[1, 10]`, where strings of decimal digits (in
any script `str.isdigit()` accepts and `int()` converts) are first converted to
their integer value, strings holding a digit-only character (superscripts and
the like) make `int()` raise and so fail, and Python treats booleans as
integers (`true` = 1, so `true` passes while `false` fails the range check) —
the score request fails with an error to the caller and the backing store is
not touched at all (no partial cache of `score`, `score_breakdown` or
`updated_at`); the store is rewritten only when all five fields pass that
validation, and then the breakdown is cached into the record. -/
theorem score_validation_no_partial_cache (fs : FS) (iid now : String)
    (d : PyDict) (db item : PyDict)
    (hdb : load_db fs = .pydict db)
    (hitem : dget db iid = some (.pydict item))
    (hne : item ≠ [])
    (hnb : truthy (pyget item "score_breakdown") = false)
    (htr : truthy (pyget item "transcript") = true) :
    (allFiveOk d = false →
      (get_score fs iid (.response (some (.pydict d))) now).1 = fs ∧
      ∃ e, (get_score fs iid (.response (some (.pydict d))) now).2 = .err e) ∧
    (∀ oracle, (get_score fs iid oracle now).1 ≠ fs →
      ∃ d2, oracle = .response (some (.pydict d2)) ∧ allFiveOk d2 = true) ∧
    (allFiveOk d = true →
      ∃ b, (get_score fs iid (.response (some (.pydict d))) now).2 = .ok b ∧
        storedField (get_score fs iid (.response (some (.pydict d))) now).1
          iid "score_breakdown" = some (.pydict b)) := by
  have htruthy : truthy (PyVal.pydict item) = true := by
    cases item with
    | nil => exact absurd rfl hne
    | cons a l => rfl
  refine ⟨fun hbad => ?_, fun oracle hmut => ?_, fun hgood => ?_⟩
  · cases ho : _norm_bucket d "overall" with
    | error e => simp [get_score, hdb, hitem, htruthy, hnb, htr, ho]
    | ok ov =>
      cases hcm : _norm_bucket d "communication" with
      | error e => simp [get_score, hdb, hitem, htruthy, hnb, htr, ho, hcm]
      | ok cm =>
        cases hrv : _norm_bucket d "relevance" with
        | error e => simp [get_score, hdb, hitem, htruthy, hnb, htr, ho, hcm, hrv]
        | ok rv =>
          cases htc : _norm_bucket d "technical" with
          | error e =>
              simp [get_score, hdb, hitem, htruthy, hnb, htr, ho, hcm, hrv, htc]
          | ok tc =>
            cases hcf : _norm_bucket d "confidence" with
            | error e =>
                simp [get_score, hdb, hitem, htruthy, hnb, htr, ho, hcm, hrv,
                  htc, hcf]
            | ok cf =>
                exfalso
                simp [allFiveOk, bucketOk, ho, hcm, hrv, htc, hcf] at hbad
  · cases oracle with
    | failure e =>
        exfalso
        exact hmut (by simp [get_score, hdb, hitem, htruthy, hnb, htr])
    | response parsed =>
        match parsed with
        | Option.none =>
            exact absurd (by simp [get_score, hdb, hitem, htruthy, hnb, htr]) hmut
        | some (.pynone) | some (.pybool _) | some (.pyint _) | some (.pystr _)
        | some (.pylist _) =>
            exact absurd (by simp [get_score, hdb, hitem, htruthy, hnb, htr]) hmut
        | some (.pydict d2) =>
            refine ⟨d2, rfl, ?_⟩
            cases ho : _norm_bucket d2 "overall" with
            | error e =>
                exact absurd
                  (by simp [get_score, hdb, hitem, htruthy, hnb, htr, ho]) hmut
            | ok ov =>
              cases hcm : _norm_bucket d2 "communication" with
              | error e =>
                  exact absurd
                    (by simp [get_score, hdb, hitem, htruthy, hnb, htr, ho, hcm])
                    hmut
              | ok cm =>
                cases hrv : _norm_bucket d2 "relevance" with
                | error e =>
                    exact absurd
                      (by simp [get_score, hdb, hitem, htruthy, hnb, htr, ho,
                        hcm, hrv]) hmut
                | ok rv =>
                  cases htc : _norm_bucket d2 "technical" with
                  | error e =>
                      exact absurd
                        (by simp [get_score, hdb, hitem, htruthy, hnb, htr, ho,
                          hcm, hrv, htc]) hmut
                  | ok tc =>
                    cases hcf : _norm_bucket d2 "confidence" with
                    | error e =>
                        exact absurd
                          (by simp [get_score, hdb, hitem, htruthy, hnb, htr,
                            ho, hcm, hrv, htc, hcf]) hmut
                    | ok cf =>
                        simp [allFiveOk, bucketOk, ho, hcm, hrv, htc, hcf]
  · have hov : ∃ x, _norm_bucket d "overall" = .ok x := by
      cases h : _norm_bucket d "overall" with
      | error e => simp [allFiveOk, bucketOk, h] at hgood
      | ok x => exact ⟨x, rfl⟩
    have hcm : ∃ x, _norm_bucket d "communication" = .ok x := by
      cases h : _norm_bucket d "communication" with
      | error e => simp [allFiveOk, bucketOk, h] at hgood
      | ok x => exact ⟨x, rfl⟩
    have hrv : ∃ x, _norm_bucket d "relevance" = .ok x := by
      cases h : _norm_bucket d "relevance" with
      | error e => simp [allFiveOk, bucketOk, h] at hgood
      | ok x => exact ⟨x, rfl⟩
    have htc : ∃ x, _norm_bucket d "technical" = .ok x := by
      cases h : _norm_bucket d "technical" with
      | error e => simp [allFiveOk, bucketOk, h] at hgood
      | ok x => exact ⟨x, rfl⟩
    have hcf : ∃ x, _norm_bucket d "confidence" = .ok x := by
      cases h : _norm_bucket d "confidence" with
      | error e => simp [allFiveOk, bucketOk, h] at hgood
      | ok x => exact ⟨x, rfl⟩
    obtain ⟨ov, ho⟩ := hov
    obtain ⟨cm, hc⟩ := hcm
    obtain ⟨rv, hr2⟩ := hrv
    obtain ⟨tc, ht2⟩ := htc
    obtain ⟨cf, hf2⟩ := hcf
    refine ⟨[("overall", .pydict ov), ("communication", .pydict cm),
      ("relevance", .pydict rv), ("technical", .pydict tc),
      ("confidence", .pydict cf),
      ("next_steps",
        match (if truthy (pyget d "next_steps") = true
               then pyget d "next_steps" else PyVal.pylist []) with
        | PyVal.pylist xs => PyVal.pylist xs
        | _ => PyVal.pylist [])], ?_, ?_⟩
    · simp [get_score, hdb, hitem, htruthy, hnb, htr, ho, hc, hr2, ht2, hf2]
    · simp [get_score, hdb, hitem, htruthy, hnb, htr, ho, hc, hr2, ht2, hf2,
        storedField_save, dget_dset]

/-- C2 witness: the amended statement evaluated on the concrete record, with an
out-of-range response (`overall.value = 0`) for the failing branch, an in-range
response for the caching branch, and the mutation-only-on-validation conjunct
read back at the failing oracle. -/
theorem score_validation_no_partial_cache_spot :
    ((get_score c2FS "iid-2"
        (.response (some (.pydict [("overall", .pydict [("value", .pyint 0)])])))
        "T5").1 = c2FS ∧
      ∃ e, (get_score c2FS "iid-2"
        (.response (some (.pydict [("overall", .pydict [("value", .pyint 0)])])))
        "T5").2 = .err e) ∧
    (∃ b, (get_score c2FS "iid-2" (.response (some (.pydict
        [("overall", .pydict [("value", .pyint 7)]),
         ("communication", .pydict [("value", .pyint 5)]),
         ("relevance", .pydict [("value", .pyint 5)]),
         ("technical", .pydict [("value", .pyint 5)]),
         ("confidence", .pydict [("value", .pyint 5)])]))) "T5").2 = .ok b ∧
      storedField (get_score c2FS "iid-2" (.response (some (.pydict
        [("overall", .pydict [("value", .pyint 7)]),
         ("communication", .pydict [("value", .pyint 5)]),
         ("relevance", .pydict [("value", .pyint 5)]),
         ("technical", .pydict [("value", .pyint 5)]),
         ("confidence", .pydict [("value", .pyint 5)])]))) "T5").1
        "iid-2" "score_breakdown" = some (.pydict b)) :=
  have h1 := score_validation_no_partial_cache c2FS "iid-2" "T5"
    [("overall", .pydict [("value", .pyint 0)])] [("iid-2", .pydict c2Record)]
    c2Record rfl rfl (by simp [c2Record]) rfl rfl
  have h2 := score_validation_no_partial_cache c2FS "iid-2" "T5"
    [("overall", .pydict [("value", .pyint 7)]),
     ("communication", .pydict [("value", .pyint 5)]),
     ("relevance", .pydict [("value", .pyint 5)]),
     ("technical", .pydict [("value", .pyint 5)]),
     ("confidence", .pydict [("value", .pyint 5)])]
    [("iid-2", .pydict c2Record)] c2Record rfl rfl (by simp [c2Record]) rfl rfl
  ⟨h1.1 (by decide), h2.2.2 (by decide)⟩

end InterviewBot
